import Mathlib

/-!
Shallow embedding of `src/index.py` (a Telegram intake-form bot) together with
proofs about its conversation state machine, validators, dispatcher and
access-control operations.

Conventions of the embedding:
* Python strings are Lean `String`s (sequences of Unicode code points, so
  `len` agrees with `String.length`).
* `str.strip()` is modelled by `pyStrip` over Python's whitespace set.
* `str.upper()` is modelled character-wise by `pyUpperChar`, covering the
  ASCII letters and the Cyrillic/Ukrainian letters appearing in the bot's
  alphabet; all other characters map to themselves.  (Python's one-to-many
  case mappings such as `ß → SS` are outside the alphabet the bot handles.)
* `html.escape` (with its default `quote=True`) is `pyHtmlEscape`.
* Telegram I/O is modelled by explicit outcome parameters: each
  `bot.send_message` call to the target chat has a `SendOutcome`
  (success / `TimedOut` / other exception), and the completion `safe_reply`
  in `handle_confirm_step` has a Boolean `replyRaises` flag.
* The per-user `context.user_data` dict is the record `SessionData`; a key
  that is absent from the dict is a field holding `none`.
-/

namespace AutoFixBot

/-- Python's `str.isspace` character class (the whitespace set used by
`str.strip()`). -/
def pyIsSpace (c : Char) : Bool :=
  (9 ≤ c.toNat && c.toNat ≤ 13) || (28 ≤ c.toNat && c.toNat ≤ 31) ||
  c.toNat == 32 || c.toNat == 0x85 || c.toNat == 0xA0 || c.toNat == 0x1680 ||
  (0x2000 ≤ c.toNat && c.toNat ≤ 0x200A) || c.toNat == 0x2028 ||
  c.toNat == 0x2029 || c.toNat == 0x202F || c.toNat == 0x205F ||
  c.toNat == 0x3000

/-- Python `str.strip()` on a list of characters: drop whitespace from both
ends. -/
def pyStripList (l : List Char) : List Char :=
  ((l.dropWhile pyIsSpace).reverse.dropWhile pyIsSpace).reverse

/-- Python `str.strip()`. -/
def pyStrip (s : String) : String :=
  ⟨pyStripList s.data⟩

/-- The lower/upper pairs realising Python's `str.upper()` on the alphabet
the bot works with: ASCII Latin letters and the Cyrillic letters (including
the Ukrainian ones appearing in `PLATE_RE` and the UI strings). -/
def upperPairs : List (Char × Char) :=
  [('a', 'A'), ('b', 'B'), ('c', 'C'), ('d', 'D'), ('e', 'E'), ('f', 'F'),
   ('g', 'G'), ('h', 'H'), ('i', 'I'), ('j', 'J'), ('k', 'K'), ('l', 'L'),
   ('m', 'M'), ('n', 'N'), ('o', 'O'), ('p', 'P'), ('q', 'Q'), ('r', 'R'),
   ('s', 'S'), ('t', 'T'), ('u', 'U'), ('v', 'V'), ('w', 'W'), ('x', 'X'),
   ('y', 'Y'), ('z', 'Z'),
   ('а', 'А'), ('б', 'Б'), ('в', 'В'), ('г', 'Г'), ('д', 'Д'), ('е', 'Е'),
   ('ж', 'Ж'), ('з', 'З'), ('и', 'И'), ('й', 'Й'), ('к', 'К'), ('л', 'Л'),
   ('м', 'М'), ('н', 'Н'), ('о', 'О'), ('п', 'П'), ('р', 'Р'), ('с', 'С'),
   ('т', 'Т'), ('у', 'У'), ('ф', 'Ф'), ('х', 'Х'), ('ц', 'Ц'), ('ч', 'Ч'),
   ('ш', 'Ш'), ('щ', 'Щ'), ('ъ', 'Ъ'), ('ы', 'Ы'), ('ь', 'Ь'), ('э', 'Э'),
   ('ю', 'Ю'), ('я', 'Я'),
   ('ё', 'Ё'), ('і', 'І'), ('ї', 'Ї'), ('є', 'Є'), ('ґ', 'Ґ')]

/-- Character-wise model of Python `str.upper()` (see `upperPairs`). -/
def pyUpperChar (c : Char) : Char :=
  ((upperPairs.find? (fun p => p.1 == c)).map Prod.snd).getD c

/-- `normalize_plate` on the underlying character list:
`value.strip().upper().replace(" ", "").replace("-", "")`. -/
def normList (l : List Char) : List Char :=
  (((pyStripList l).map pyUpperChar).filter (fun c => c != ' ')).filter
    (fun c => c != '-')

/-- `normalize_plate(value)` from `index.py`:
strip, uppercase, delete every space and hyphen character. -/
def normalize_plate (value : String) : String :=
  ⟨normList value.data⟩

/-- The character class of `PLATE_RE = re.compile(r"[A-ZА-ЯІЇЄ0-9]{5,10}")`:
uppercase ASCII letters, Cyrillic А–Я, the Ukrainian letters І, Ї, Є, and the
decimal digits. -/
def plateChar (c : Char) : Bool :=
  decide (65 ≤ c.toNat ∧ c.toNat ≤ 90) ||
  decide (0x410 ≤ c.toNat ∧ c.toNat ≤ 0x42F) ||
  c == 'І' || c == 'Ї' || c == 'Є' ||
  decide (48 ≤ c.toNat ∧ c.toNat ≤ 57)

/-- `PLATE_RE.fullmatch(s)`: the whole string is 5 to 10 characters drawn
from `plateChar`. -/
def plateFullmatch (s : String) : Bool :=
  decide (5 ≤ s.data.length) && decide (s.data.length ≤ 10) &&
  s.data.all plateChar

/-- `looks_like_plate(value)` from `index.py`:
`bool(PLATE_RE.fullmatch(normalize_plate(value)))`. -/
def looks_like_plate (value : String) : Bool :=
  plateFullmatch (normalize_plate value)

/-- One character of Python's `html.escape` with the default `quote=True`. -/
def pyHtmlEscapeChar (c : Char) : List Char :=
  if c = '&' then "&amp;".data
  else if c = '<' then "&lt;".data
  else if c = '>' then "&gt;".data
  else if c = '"' then "&quot;".data
  else if c = '\'' then "&#x27;".data
  else [c]

/-- Python's `html.escape` with the default `quote=True`. -/
def pyHtmlEscape (s : String) : String :=
  ⟨(s.data.map pyHtmlEscapeChar).flatten⟩

/-- The `Step` string constants of `index.py`, as a closed enumeration. -/
inductive Step where
  | number
  | type
  | description
  | confirm
deriving DecidableEq, Repr

/-- The per-user `context.user_data` dict: the `"step"`, `"number"`,
`"type"` and `"description"` keys.  A missing key is `none`.  The empty
record `{}` is a cleared session (`context.user_data.clear()`). -/
structure SessionData where
  step : Option Step := none
  number : Option String := none
  type : Option String := none
  description : Option String := none
deriving DecidableEq, Repr

/-- Which `reply_markup` a message is sent with: `CANCEL_KB`, `CONFIRM_KB`,
the `PROBLEM_TYPES` keyboard, `ReplyKeyboardRemove()`, or `None`. -/
inductive Keyboard where
  | cancelKb
  | confirmKb
  | problemTypesKb
  | removeKb
  | noneKb
deriving DecidableEq, Repr

/-- One outbound message to the user: text plus reply markup. -/
structure Reply where
  text : String
  markup : Keyboard
deriving DecidableEq, Repr

/-- The `UiText` dataclass of `index.py` (the recognised button labels). -/
structure UiText where
  cancel : String := "❌ Скасувати"
  restart : String := "🔁 Почати заново"
  send : String := "✅ Відправити"
  edit_number : String := "✏️ Змінити номер"
  edit_type : String := "✏️ Змінити тип"
  edit_desc : String := "✏️ Змінити опис"

/-- `TXT = UiText()`. -/
def TXT : UiText := {}

/-- `PROBLEM_TYPES` from `index.py`: the keyboard rows, one label each. -/
def PROBLEM_TYPES : List (List String) :=
  [["Світло / електрика"],
   ["Рідини / оливи"],
   ["Колеса / ходова"],
   ["Салон / кузов"],
   ["Інше"]]

/-- `allowed = {row[0] for row in PROBLEM_TYPES}` in `handle_type_step`. -/
def allowedTypes : List String :=
  PROBLEM_TYPES.filterMap List.head?

/-- The `ask_for_type` prompt. -/
def askForTypeReply : Reply :=
  ⟨"Оберіть тип проблеми:", Keyboard.problemTypesKb⟩

/-- The mismatch re-prompt of `handle_type_step` (sent with the same
`PROBLEM_TYPES` keyboard as `ask_for_type`). -/
def chooseTypeReply : Reply :=
  ⟨"Оберіть тип кнопкою нижче 👇", Keyboard.problemTypesKb⟩

/-- The advisory warning of `handle_number_step`. -/
def plateWarningReply : Reply :=
  ⟨"⚠️ Номер виглядає незвично. Якщо все ок - продовжуйте.", Keyboard.cancelKb⟩

/-- The `ask_for_description` prompt text. -/
def descriptionPromptText : String :=
  "📝 Опишіть проблему.\n\n" ++
  "Приклади:\n\n" ++
  "💡 Світло / електрика\n" ++
  "• перегоріла ліва лампа\n" ++
  "• не працює стоп-сигнал\n" ++
  "• перегорів запобіжник\n\n" ++
  "🛢 Рідини / оливи\n" ++
  "• долити антифриз\n" ++
  "• долити омивач\n" ++
  "• низький рівень оливи\n\n" ++
  "🛞 Колеса / ходова\n" ++
  "• спустило колесо\n" ++
  "• потрібна підкачка колеса\n" ++
  "• стукає стійка\n\n" ++
  "🚗 Салон / кузов\n" ++
  "• брудний салон\n" ++
  "• подряпина на дверях\n" ++
  "• пошкоджений бампер"

/-- The `ask_for_description` prompt. -/
def askForDescriptionReply : Reply :=
  ⟨descriptionPromptText, Keyboard.removeKb⟩

/-- The too-short rejection of `handle_description_step` (no markup). -/
def descTooShortReply : Reply :=
  ⟨"Опис надто короткий. Додайте, будь ласка, більше деталей.", Keyboard.noneKb⟩

/-- The edit-number prompt of `handle_confirm_step`. -/
def editNumberReply : Reply :=
  ⟨"Введіть номер авто ще раз:", Keyboard.cancelKb⟩

/-- The unrecognised-text re-prompt of `handle_confirm_step`. -/
def chooseActionReply : Reply :=
  ⟨"Оберіть дію кнопкою нижче 👇", Keyboard.confirmKb⟩

/-- The completion message of `handle_confirm_step`. -/
def doneReply : Reply :=
  ⟨"Готово ✅ Заявку відправлено. Для нової заявки натисніть /start.",
   Keyboard.removeKb⟩

/-- The dispatch-failure message of `handle_confirm_step`. -/
def sendFailedReply : Reply :=
  ⟨"⚠️ Не вдалося відправити заявку. Спробуйте ще раз за хвилину.",
   Keyboard.confirmKb⟩

/-- `context.user_data.get(key, "-")`. -/
def orDash (o : Option String) : String :=
  o.getD "-"

/-- `build_preview_html(context)` from `index.py`. -/
def build_preview_html (s : SessionData) : String :=
  "🧾 <b>Перевірте заявку перед відправкою:</b>\n" ++
  "🚗 <b>Авто:</b> <code>" ++ pyHtmlEscape (orDash s.number) ++ "</code>\n" ++
  "📌 <b>Тип:</b> " ++ pyHtmlEscape (orDash s.type) ++ "\n" ++
  "📝 <b>Опис:</b> " ++ pyHtmlEscape (orDash s.description) ++ "\n\n" ++
  "Якщо все ок - натисніть <b>" ++ pyHtmlEscape TXT.send ++ "</b>."

/-- `build_dispatch_html(context, update)` from `index.py`; `sender` and
`createdAt` stand for `sender_label(update)` and `now_local_str()`. -/
def build_dispatch_html (s : SessionData) (sender createdAt : String) : String :=
  "🛠 <b>Нова заявка</b>\n" ++
  "🕒 <b>Час:</b> " ++ pyHtmlEscape createdAt ++ "\n" ++
  "👤 <b>Від:</b> " ++ pyHtmlEscape sender ++ "\n" ++
  "🚗 <b>Авто:</b> <code>" ++ pyHtmlEscape (orDash s.number) ++ "</code>\n" ++
  "📌 <b>Тип:</b> " ++ pyHtmlEscape (orDash s.type) ++ "\n" ++
  "📝 <b>Опис:</b> " ++ pyHtmlEscape (orDash s.description)

/-- The outcome of one `bot.send_message` call to the target chat:
delivered, raised `telegram.error.TimedOut`, or raised any other
exception. -/
inductive SendOutcome where
  | ok
  | timedOut
  | otherError
deriving DecidableEq, Repr

/-- Observable behaviour of one `send_request` call: the `send_message`
attempts that were made (chat id and text of each), what was printed to
stdout on the fallback path, and whether an exception escaped to the
caller. -/
structure SendResult where
  attempts : List (Int × String) := []
  printed : List String := []
  raised : Bool := false
deriving DecidableEq, Repr

/-- `send_request(update, context)` from `index.py`, with the message text
already rendered.  `o1` is the outcome of the first `send_message`, `o2`
of the retry (consulted only after a first `TimedOut`): only `TimedOut`
is caught, and only once; the retry is not guarded, so any exception it
raises escapes. -/
def send_request (targetChat : Option Int) (message : String)
    (o1 o2 : SendOutcome) : SendResult :=
  match targetChat with
  | none => { printed := [message] }
  | some chat =>
    match o1 with
    | SendOutcome.ok => { attempts := [(chat, message)] }
    | SendOutcome.otherError => { attempts := [(chat, message)], raised := true }
    | SendOutcome.timedOut =>
      match o2 with
      | SendOutcome.ok => { attempts := [(chat, message), (chat, message)] }
      | _ => { attempts := [(chat, message), (chat, message)], raised := true }

/-- Result of one `handle_confirm_step` call: the session afterwards, the
replies the user received, and the `send_request` behaviour if dispatch was
invoked (`none` when it was not). -/
structure ConfirmResult where
  session : SessionData
  replies : List Reply
  dispatch : Option SendResult
deriving DecidableEq, Repr

/-- `handle_number_step(update, context, text)` from `index.py`: store the
normalized plate, advance to `TYPE`, warn (without blocking) when
`looks_like_plate` fails, then prompt for the type. -/
def handle_number_step (s : SessionData) (text : String) :
    SessionData × List Reply :=
  let plate := normalize_plate text
  let s' := { s with number := some plate, step := some Step.type }
  if looks_like_plate plate then (s', [askForTypeReply])
  else (s', [plateWarningReply, askForTypeReply])

/-- `handle_type_step(update, context, text)` from `index.py`: on a label
mismatch re-prompt without mutating; on a match store the label and advance
to `DESCRIPTION`. -/
def handle_type_step (s : SessionData) (text : String) :
    SessionData × List Reply :=
  if text ∈ allowedTypes then
    ({ s with type := some text, step := some Step.description },
     [askForDescriptionReply])
  else (s, [chooseTypeReply])

/-- `handle_description_step(update, context, text)` from `index.py`:
reject a trimmed text shorter than 3 characters, otherwise store it,
advance to `CONFIRM` and show the preview. -/
def handle_description_step (s : SessionData) (text : String) :
    SessionData × List Reply :=
  let cleaned := pyStrip text
  if cleaned.length < 3 then (s, [descTooShortReply])
  else
    let s' := { s with description := some cleaned, step := some Step.confirm }
    (s', [⟨build_preview_html s', Keyboard.confirmKb⟩])

/-- `handle_confirm_step(update, context, text)` from `index.py`.
`replyRaises` is true when the completion `safe_reply` (inside the `try`
block, before `user_data.clear()`) raises; the exception is then caught by
the same `except` as a dispatch failure. -/
def handle_confirm_step (s : SessionData) (text : String)
    (targetChat : Option Int) (o1 o2 : SendOutcome) (replyRaises : Bool)
    (sender createdAt : String) : ConfirmResult :=
  if text = TXT.edit_number then
    ⟨{ s with step := some Step.number }, [editNumberReply], none⟩
  else if text = TXT.edit_type then
    ⟨{ s with step := some Step.type }, [askForTypeReply], none⟩
  else if text = TXT.edit_desc then
    ⟨{ s with step := some Step.description }, [askForDescriptionReply], none⟩
  else if text ≠ TXT.send then
    ⟨s, [chooseActionReply], none⟩
  else
    let r := send_request targetChat (build_dispatch_html s sender createdAt) o1 o2
    if r.raised then ⟨s, [sendFailedReply], some r⟩
    else if replyRaises then ⟨s, [sendFailedReply], some r⟩
    else ⟨{}, [doneReply], some r⟩

/-- Python's `int(s)` on a string, as used by `get_target_chat`: strip
whitespace, optional sign, at least one ASCII digit.  (Underscore digit
separators and non-ASCII decimal digits, which CPython also accepts, do not
occur in the configuration values the program reads.) -/
def pyParseInt (s : String) : Option Int :=
  let l := pyStripList s.data
  let signDigits : Int × List Char :=
    match l with
    | '+' :: t => (1, t)
    | '-' :: t => (-1, t)
    | t => (1, t)
  if signDigits.2 ≠ [] ∧ signDigits.2.all Char.isDigit then
    some (signDigits.1 *
      (signDigits.2.foldl (fun a c => a * 10 + (c.toNat - 48)) 0 : Nat))
  else none

/-- `get_target_chat()` from `index.py`, with `TARGET_CHAT_RAW` (already
`.strip()`ed at load time) as the argument: empty ⇒ `None`; non-integer ⇒
log an error and return `None`. -/
def get_target_chat (raw : String) : Option Int :=
  if raw = "" then none
  else pyParseInt raw

/-- `save_blocked_users(blocked)`: the persisted file content is the sorted
list of the blocked ids (`sorted(blocked)` serialised as a JSON array). -/
def save_blocked_users (blocked : Finset Int) : List Int :=
  blocked.sort (· ≤ ·)

/-- The mutation path of `ban_user` (after the admin and argument checks):
`blocked.add(user_id); save_blocked_users(blocked)` and the reply
`f"Користувача {user_id} заблоковано."` — unconditionally. -/
def ban_user (blocked : Finset Int) (uid : Int) : Finset Int × String :=
  (insert uid blocked, "Користувача " ++ toString uid ++ " заблоковано.")

/-- The mutation path of `unban_user` (after the admin and argument
checks): remove and persist when present, otherwise leave the set alone and
reply `f"Користувач {user_id} не був у блок-листі."`. -/
def unban_user (blocked : Finset Int) (uid : Int) : Finset Int × String :=
  if uid ∈ blocked then
    (blocked.erase uid, "Користувача " ++ toString uid ++ " розблоковано.")
  else (blocked, "Користувач " ++ toString uid ++ " не був у блок-листі.")

/-- A fully collected session sitting at the `CONFIRM` step (used to
instantiate the confirm-step theorems on concrete data). -/
def sampleConfirmSession : SessionData :=
  { step := some Step.confirm, number := some "A123A",
    type := some "Колеса / ходова", description := some "spustylo kermo" }

/-! ### Helper lemmas about the character primitives -/

/-- Every pair of `upperPairs` consists of non-whitespace characters, the
uppercase side is neither a space nor a hyphen, and the uppercase side is
not itself a key of the table (uppercasing is stable on it). -/
theorem upperPairs_facts : ∀ p ∈ upperPairs,
    pyIsSpace p.1 = false ∧ pyIsSpace p.2 = false ∧ p.2 ≠ ' ' ∧ p.2 ≠ '-' ∧
    upperPairs.find? (fun q => q.1 == p.2) = none := by decide

theorem pyUpperChar_of_find_none {c : Char}
    (h : upperPairs.find? (fun q => q.1 == c) = none) : pyUpperChar c = c := by
  unfold pyUpperChar
  rw [h]
  rfl

theorem pyUpperChar_of_find_some {c : Char} {p : Char × Char}
    (h : upperPairs.find? (fun q => q.1 == c) = some p) :
    pyUpperChar c = p.2 := by
  unfold pyUpperChar
  rw [h]
  rfl

theorem pyUpperChar_idem (c : Char) :
    pyUpperChar (pyUpperChar c) = pyUpperChar c := by
  cases hfind : upperPairs.find? (fun q => q.1 == c) with
  | none => rw [pyUpperChar_of_find_none hfind, pyUpperChar_of_find_none hfind]
  | some p =>
    have hf := upperPairs_facts p (List.mem_of_find?_eq_some hfind)
    rw [pyUpperChar_of_find_some hfind, pyUpperChar_of_find_none hf.2.2.2.2]

theorem pyIsSpace_pyUpperChar (c : Char) :
    pyIsSpace (pyUpperChar c) = pyIsSpace c := by
  cases hfind : upperPairs.find? (fun q => q.1 == c) with
  | none => rw [pyUpperChar_of_find_none hfind]
  | some p =>
    have hf := upperPairs_facts p (List.mem_of_find?_eq_some hfind)
    have hc : p.1 = c := by simpa using List.find?_some hfind
    rw [pyUpperChar_of_find_some hfind, hf.2.1, ← hc, hf.1]

theorem dropWhile_eq_self_of_not {α : Type} {p : α → Bool} {l : List α}
    (h : ∀ c ∈ l, p c = false) : l.dropWhile p = l := by
  cases l with
  | nil => rfl
  | cons a t => simp [List.dropWhile_cons, h a (List.mem_cons_self a t)]

theorem pyStripList_eq_self {l : List Char}
    (h : ∀ c ∈ l, pyIsSpace c = false) : pyStripList l = l := by
  unfold pyStripList
  rw [dropWhile_eq_self_of_not h,
    dropWhile_eq_self_of_not (fun c hc => h c (List.mem_reverse.mp hc))]
  exact List.reverse_reverse l

/-- Every character of `normalize_plate`'s output is neither a space nor a
hyphen and is the uppercasing of some character of the input. -/
theorem normList_members {l : List Char} {c : Char} (hc : c ∈ normList l) :
    c ≠ ' ' ∧ c ≠ '-' ∧ ∃ d, d ∈ l ∧ c = pyUpperChar d := by
  unfold normList at hc
  rw [List.mem_filter] at hc
  obtain ⟨hc, hh⟩ := hc
  rw [List.mem_filter] at hc
  obtain ⟨hc, hs⟩ := hc
  rw [List.mem_map] at hc
  obtain ⟨d, hd, rfl⟩ := hc
  refine ⟨by simpa using hs, by simpa using hh, d, ?_, rfl⟩
  unfold pyStripList at hd
  rw [List.mem_reverse] at hd
  have hd2 := (List.dropWhile_sublist pyIsSpace).subset hd
  rw [List.mem_reverse] at hd2
  exact (List.dropWhile_sublist pyIsSpace).subset hd2

/-- `normalize_plate` is idempotent on inputs whose only whitespace
characters are plain spaces (the failure mode needs a non-space whitespace
character shielded from `strip()` by a hyphen, see the counterexample). -/
theorem normList_idem {l : List Char}
    (h : ∀ c ∈ l, pyIsSpace c = true → c = ' ') :
    normList (normList l) = normList l := by
  have key : ∀ c ∈ normList l,
      pyIsSpace c = false ∧ c ≠ ' ' ∧ c ≠ '-' ∧ pyUpperChar c = c := by
    intro c hc
    obtain ⟨hs, hh, d, hd, rfl⟩ := normList_members hc
    refine ⟨?_, hs, hh, pyUpperChar_idem d⟩
    by_contra hsp
    have hsp' : pyIsSpace (pyUpperChar d) = true := by simpa using hsp
    have hd' : pyIsSpace d = true := by
      rw [← pyIsSpace_pyUpperChar]
      exact hsp'
    have hds := h d hd hd'
    rw [hds] at hs
    exact hs (by decide)
  have h1 : pyStripList (normList l) = normList l :=
    pyStripList_eq_self (fun c hc => (key c hc).1)
  have h2 : (normList l).map pyUpperChar = normList l := by
    rw [List.map_congr_left (fun c hc => (key c hc).2.2.2)]
    exact List.map_id _
  have h3 : (normList l).filter (fun c => c != ' ') = normList l :=
    List.filter_eq_self.mpr (fun c hc => by simpa using (key c hc).2.1)
  have h4 : (normList l).filter (fun c => c != '-') = normList l :=
    List.filter_eq_self.mpr (fun c hc => by simpa using (key c hc).2.2.1)
  have hshow : normList (normList l) =
      (((pyStripList (normList l)).map pyUpperChar).filter
        (fun c => c != ' ')).filter (fun c => c != '-') := rfl
  rw [hshow, h1, h2, h3, h4]

/-! ### C3: idempotence of the identifier normalizer -/

/-- C3 counterexample: `normalize_plate` is NOT idempotent on every string.
On `"-\ta"` the leading hyphen shields the tab from `strip()`, the
`replace` calls delete only spaces and hyphens, so one pass yields
`"\tA"`; a second pass strips the now-leading tab and yields `"A"`. -/
theorem normalize_plate_not_idempotent :
    normalize_plate "-\ta" = "\tA" ∧ normalize_plate "\tA" = "A" ∧
    normalize_plate (normalize_plate "-\ta") ≠ normalize_plate "-\ta" := by
  refine ⟨?_, ?_, ?_⟩ <;> decide

/-- C3 amended: `normalize_plate` is idempotent on every string whose
whitespace characters are all plain spaces `' '` (in particular on every
string without whitespace at all); the original claim fails only on inputs
containing some other whitespace character. -/
theorem normalize_plate_idem_of_plain_spaces (x : String)
    (h : ∀ c ∈ x.data, pyIsSpace c = true → c = ' ') :
    normalize_plate (normalize_plate x) = normalize_plate x := by
  show String.mk (normList (normList x.data)) = String.mk (normList x.data)
  exact congrArg String.mk (normList_idem h)

/-- C3 amended, witness: a concrete run on `" ab - 12 "` (spaces only). -/
theorem normalize_plate_idem_of_plain_spaces_witness :
    normalize_plate (normalize_plate " ab - 12 ") = normalize_plate " ab - 12 " :=
  normalize_plate_idem_of_plain_spaces " ab - 12 " (by decide)

/-! ### C1: the TYPE step -/

/-- C1: at the `TYPE` step the session stores the text as its category and
advances to `DESCRIPTION` exactly when the text equals one of the five
fixed labels of `PROBLEM_TYPES`; on any other text nothing in the session
changes (in particular `type` stays unset and `step` stays `TYPE`) and a
category-selection prompt with the `PROBLEM_TYPES` keyboard is emitted
again. -/
theorem handle_type_step_advances_iff (s : SessionData) (text : String) :
    allowedTypes = ["Світло / електрика", "Рідини / оливи", "Колеса / ходова",
      "Салон / кузов", "Інше"] ∧
    (text ∈ allowedTypes →
      handle_type_step s text =
        ({ s with type := some text, step := some Step.description },
         [askForDescriptionReply])) ∧
    (text ∉ allowedTypes →
      handle_type_step s text = (s, [chooseTypeReply])) := by
  refine ⟨rfl, fun h => ?_, fun h => ?_⟩ <;> simp [handle_type_step, h]

/-- C1 witness: the exact label `"Колеса / ходова"` advances and stores;
the non-label `"колеса"` leaves the session untouched and re-prompts. -/
theorem handle_type_step_advances_iff_witness :
    handle_type_step {} "Колеса / ходова" =
      ({ ({} : SessionData) with
          type := some "Колеса / ходова",
          step := some Step.description }, [askForDescriptionReply]) ∧
    handle_type_step {} "колеса" = ({}, [chooseTypeReply]) :=
  ⟨(handle_type_step_advances_iff {} "Колеса / ходова").2.1 (by decide),
   (handle_type_step_advances_iff {} "колеса").2.2 (by decide)⟩

/-! ### C2: the DESCRIPTION step -/

/-- C2: at the `DESCRIPTION` step a text whose trimmed form is shorter than
3 characters leaves the session exactly as it was (no advance, `description`
unchanged) and only the too-short message is sent; a trimmed length of at
least 3 stores the trimmed text, advances to `CONFIRM` and shows the
preview of the updated session. -/
theorem handle_description_step_spec (s : SessionData) (text : String) :
    ((pyStrip text).length < 3 →
      handle_description_step s text = (s, [descTooShortReply])) ∧
    (3 ≤ (pyStrip text).length →
      handle_description_step s text =
        ({ s with description := some (pyStrip text), step := some Step.confirm },
         [⟨build_preview_html
             { s with
                description := some (pyStrip text),
                step := some Step.confirm }, Keyboard.confirmKb⟩])) := by
  constructor
  · intro h
    simp [handle_description_step, h]
  · intro h
    simp [handle_description_step, Nat.not_lt.mpr h]

/-- C2 witness: `"ok"` (length 2) is rejected without any session change;
`"abc"` (length 3) is stored and the session advances to `CONFIRM`. -/
theorem handle_description_step_spec_witness :
    handle_description_step {} "ok" = ({}, [descTooShortReply]) ∧
    handle_description_step {} "abc" =
      ({ ({} : SessionData) with
          description := some (pyStrip "abc"),
          step := some Step.confirm },
       [⟨build_preview_html
           { ({} : SessionData) with
              description := some (pyStrip "abc"),
              step := some Step.confirm }, Keyboard.confirmKb⟩]) :=
  ⟨(handle_description_step_spec {} "ok").1 (by decide),
   (handle_description_step_spec {} "abc").2 (by decide)⟩

/-! ### C5: the NUMBER step -/

/-- C5: at the `NUMBER` step every text is normalized and stored as the
identifier and the session always advances to `TYPE`; exactly when the
stored value fails `looks_like_plate` an advisory warning precedes the type
prompt — progression is never blocked. -/
theorem handle_number_step_spec (s : SessionData) (text : String) :
    (handle_number_step s text).1 =
      { s with number := some (normalize_plate text), step := some Step.type } ∧
    (looks_like_plate (normalize_plate text) = true →
      (handle_number_step s text).2 = [askForTypeReply]) ∧
    (looks_like_plate (normalize_plate text) = false →
      (handle_number_step s text).2 = [plateWarningReply, askForTypeReply]) := by
  cases hlp : looks_like_plate (normalize_plate text) <;>
    simp [handle_number_step, hlp]

/-- C5 witness: `" a 1 2 3 a "` normalizes to the well-formed `"A123A"`
(no warning); `"a1"` normalizes to the too-short `"A1"` (warning), and both
advance. -/
theorem handle_number_step_spec_witness :
    (handle_number_step {} " a 1 2 3 a ").1 =
      { ({} : SessionData) with
         number := some (normalize_plate " a 1 2 3 a "),
         step := some Step.type } ∧
    (handle_number_step {} " a 1 2 3 a ").2 = [askForTypeReply] ∧
    (handle_number_step {} "a1").2 = [plateWarningReply, askForTypeReply] :=
  ⟨(handle_number_step_spec {} " a 1 2 3 a ").1,
   (handle_number_step_spec {} " a 1 2 3 a ").2.1 (by decide),
   (handle_number_step_spec {} "a1").2.2 (by decide)⟩

/-! ### C4: redundant ban / unban -/

/-- C4 counterexample: a redundant `ban` does NOT report an
"already present" signal — `ban_user` replies with the one unconditional
success message, identical to the reply for a fresh ban of the same id. -/
theorem ban_user_redundant_reports_success :
    (ban_user {5} 5).2 = (ban_user ∅ 5).2 ∧
    (ban_user {5} 5).2 = "Користувача 5 заблоковано." := by
  constructor
  · rfl
  · decide

/-- C4 amended: `unban` of an absent id leaves the set unchanged and
reports "not present" (`"не був у блок-листі"`); `ban` of an
already-present id leaves the in-memory set and the persisted file content
unchanged, but replies with the ordinary success message rather than an
"already present" signal. -/
theorem ban_unban_redundant_spec (s : Finset Int) (uid : Int) :
    (uid ∈ s →
      (ban_user s uid).1 = s ∧
      save_blocked_users (ban_user s uid).1 = save_blocked_users s ∧
      (ban_user s uid).2 = "Користувача " ++ toString uid ++ " заблоковано.") ∧
    (uid ∉ s →
      unban_user s uid =
        (s, "Користувач " ++ toString uid ++ " не був у блок-листі.")) := by
  constructor
  · intro h
    have h1 : (ban_user s uid).1 = s := Finset.insert_eq_self.mpr h
    exact ⟨h1, by rw [h1], rfl⟩
  · intro h
    simp [unban_user, h]

/-- C4 amended, witness: banning the already-banned id `5` and unbanning
the absent id `7`. -/
theorem ban_unban_redundant_spec_witness :
    ((ban_user {5} 5).1 = {5} ∧
     save_blocked_users (ban_user {5} 5).1 = save_blocked_users {5} ∧
     (ban_user {5} 5).2 = "Користувача " ++ toString (5 : Int) ++ " заблоковано.") ∧
    unban_user ∅ 7 =
      (∅, "Користувач " ++ toString (7 : Int) ++ " не був у блок-листі.") :=
  ⟨(ban_unban_redundant_spec {5} 5).1 (by simp),
   (ban_unban_redundant_spec ∅ 7).2 (by simp)⟩

/-! ### C7 and C8: the dispatcher -/

/-- C7: with a configured recipient, a first `TimedOut` is retried exactly
once with the identical payload (two identical attempts, never more); the
retry succeeding means no failure, while a second timeout or any other
exception on the retry fails; a non-timeout exception on the first attempt
fails immediately with no retry; a first success makes exactly one
attempt. -/
theorem send_request_retry_spec (chat : Int) (message : String) (o2 : SendOutcome) :
    (send_request (some chat) message SendOutcome.timedOut o2).attempts =
      [(chat, message), (chat, message)] ∧
    (send_request (some chat) message SendOutcome.timedOut SendOutcome.ok).raised
      = false ∧
    (o2 ≠ SendOutcome.ok →
      (send_request (some chat) message SendOutcome.timedOut o2).raised = true) ∧
    send_request (some chat) message SendOutcome.otherError o2 =
      { attempts := [(chat, message)], raised := true } ∧
    send_request (some chat) message SendOutcome.ok o2 =
      { attempts := [(chat, message)] } := by
  cases o2 <;> simp [send_request]

/-- C7 witness: two timeouts in a row on chat `1`: two identical attempts
and a failure reported to the caller. -/
theorem send_request_retry_spec_witness :
    (send_request (some 1) "заявка" SendOutcome.timedOut
        SendOutcome.timedOut).attempts = [(1, "заявка"), (1, "заявка")] ∧
    (send_request (some 1) "заявка" SendOutcome.timedOut
        SendOutcome.timedOut).raised = true :=
  ⟨(send_request_retry_spec 1 "заявка" SendOutcome.timedOut).1,
   (send_request_retry_spec 1 "заявка" SendOutcome.timedOut).2.2.1 (by decide)⟩

/-- C8: with no recipient configured, dispatch prints the rendered message
to stdout, makes no send attempt, and never raises — whatever the network
outcomes would have been. -/
theorem send_request_no_recipient (message : String) (o1 o2 : SendOutcome) :
    send_request none message o1 o2 = { printed := [message] } := rfl

/-! ### C6 and C9: the CONFIRM step around dispatch -/

/-- Reduction of `handle_confirm_step` on the send label: none of the three
edit labels match and the not-send guard fails, so control reaches the
dispatch block. -/
theorem handle_confirm_step_send (s : SessionData) (targetChat : Option Int)
    (o1 o2 : SendOutcome) (replyRaises : Bool) (sender createdAt : String) :
    handle_confirm_step s TXT.send targetChat o1 o2 replyRaises sender createdAt =
      (let r := send_request targetChat (build_dispatch_html s sender createdAt) o1 o2
       if r.raised then ⟨s, [sendFailedReply], some r⟩
       else if replyRaises then ⟨s, [sendFailedReply], some r⟩
       else ⟨{}, [doneReply], some r⟩) := by
  unfold handle_confirm_step
  rw [if_neg (by decide), if_neg (by decide), if_neg (by decide),
    if_neg (by decide)]

/-- C6: at `CONFIRM`, "send" dispatches; if dispatch raises, the failure
message is sent and the session is exactly as before (still at `CONFIRM`
with all fields, so "send" can simply be retried); if dispatch succeeds
(and the completion reply is delivered), the session is cleared entirely
and the completion message is sent. -/
theorem handle_confirm_send_spec (s : SessionData) (targetChat : Option Int)
    (o1 o2 : SendOutcome) (sender createdAt : String)
    (hstep : s.step = some Step.confirm) :
    ((send_request targetChat (build_dispatch_html s sender createdAt) o1 o2).raised
        = true →
      handle_confirm_step s TXT.send targetChat o1 o2 false sender createdAt =
        ⟨s, [sendFailedReply],
         some (send_request targetChat (build_dispatch_html s sender createdAt)
           o1 o2)⟩) ∧
    ((send_request targetChat (build_dispatch_html s sender createdAt) o1 o2).raised
        = false →
      handle_confirm_step s TXT.send targetChat o1 o2 false sender createdAt =
        ⟨{}, [doneReply],
         some (send_request targetChat (build_dispatch_html s sender createdAt)
           o1 o2)⟩) := by
  constructor <;> intro h <;> rw [handle_confirm_step_send] <;> simp [h]

/-- C6 witness: a concrete confirm-step session; a non-timeout dispatch
exception leaves it intact with the failure message, a clean dispatch
clears it with the completion message. -/
theorem handle_confirm_send_spec_witness :
    handle_confirm_step sampleConfirmSession TXT.send (some 99)
        SendOutcome.otherError SendOutcome.ok false "@user" "2024-01-01 10:00 EET" =
      ⟨sampleConfirmSession, [sendFailedReply],
       some (send_request (some 99)
         (build_dispatch_html sampleConfirmSession "@user" "2024-01-01 10:00 EET")
         SendOutcome.otherError SendOutcome.ok)⟩ ∧
    handle_confirm_step sampleConfirmSession TXT.send (some 99)
        SendOutcome.ok SendOutcome.ok false "@user" "2024-01-01 10:00 EET" =
      ⟨{}, [doneReply],
       some (send_request (some 99)
         (build_dispatch_html sampleConfirmSession "@user" "2024-01-01 10:00 EET")
         SendOutcome.ok SendOutcome.ok)⟩ :=
  ⟨(handle_confirm_send_spec sampleConfirmSession (some 99) SendOutcome.otherError
      SendOutcome.ok "@user" "2024-01-01 10:00 EET" rfl).1 rfl,
   (handle_confirm_send_spec sampleConfirmSession (some 99) SendOutcome.ok
      SendOutcome.ok "@user" "2024-01-01 10:00 EET" rfl).2 rfl⟩

/-- C9: if dispatch succeeds but the completion `safe_reply` raises, the
`except` block runs: the session is NOT cleared (it keeps all fields at
`CONFIRM`) and the user gets the failure message — so a subsequent "send"
invokes `send_request` again with the same rendered payload, dispatching
the request a second time. -/
theorem handle_confirm_reply_failure_spec (s : SessionData)
    (targetChat : Option Int) (o1 o2 : SendOutcome) (sender createdAt : String)
    (hstep : s.step = some Step.confirm)
    (hok : (send_request targetChat (build_dispatch_html s sender createdAt)
        o1 o2).raised = false) :
    handle_confirm_step s TXT.send targetChat o1 o2 true sender createdAt =
      ⟨s, [sendFailedReply],
       some (send_request targetChat (build_dispatch_html s sender createdAt)
         o1 o2)⟩ ∧
    (handle_confirm_step
        (handle_confirm_step s TXT.send targetChat o1 o2 true sender
          createdAt).session
        TXT.send targetChat SendOutcome.ok SendOutcome.ok false sender
        createdAt).dispatch =
      some (send_request targetChat (build_dispatch_html s sender createdAt)
        SendOutcome.ok SendOutcome.ok) := by
  have h1 : handle_confirm_step s TXT.send targetChat o1 o2 true sender createdAt =
      ⟨s, [sendFailedReply],
       some (send_request targetChat (build_dispatch_html s sender createdAt)
         o1 o2)⟩ := by
    rw [handle_confirm_step_send]
    simp [hok]
  have h2 : (send_request targetChat (build_dispatch_html s sender createdAt)
      SendOutcome.ok SendOutcome.ok).raised = false := by
    cases targetChat <;> rfl
  refine ⟨h1, ?_⟩
  rw [h1, handle_confirm_step_send]
  simp [h2]

/-- C9 witness: a concrete confirm-step session whose dispatch succeeds but
whose completion reply raises; the session survives and a retried "send"
dispatches the identical payload. -/
theorem handle_confirm_reply_failure_spec_witness :
    handle_confirm_step sampleConfirmSession TXT.send (some 99)
        SendOutcome.ok SendOutcome.ok true "@user" "2024-01-01 10:00 EET" =
      ⟨sampleConfirmSession, [sendFailedReply],
       some (send_request (some 99)
         (build_dispatch_html sampleConfirmSession "@user" "2024-01-01 10:00 EET")
         SendOutcome.ok SendOutcome.ok)⟩ ∧
    (handle_confirm_step
        (handle_confirm_step sampleConfirmSession TXT.send (some 99)
          SendOutcome.ok SendOutcome.ok true "@user"
          "2024-01-01 10:00 EET").session
        TXT.send (some 99) SendOutcome.ok SendOutcome.ok false "@user"
        "2024-01-01 10:00 EET").dispatch =
      some (send_request (some 99)
        (build_dispatch_html sampleConfirmSession "@user" "2024-01-01 10:00 EET")
        SendOutcome.ok SendOutcome.ok) :=
  handle_confirm_reply_failure_spec sampleConfirmSession (some 99)
    SendOutcome.ok SendOutcome.ok "@user" "2024-01-01 10:00 EET" rfl rfl

/-! ### C10: unparseable recipient configuration -/

/-- C10: a recipient value that is present but not parseable as an integer
makes `get_target_chat` return `None`, exactly as for an absent value, so
dispatch takes the console fallback and reports success. -/
theorem get_target_chat_invalid_like_absent (raw message : String)
    (o1 o2 : SendOutcome) (hne : raw ≠ "") (hbad : pyParseInt raw = none) :
    get_target_chat raw = none ∧
    get_target_chat raw = get_target_chat "" ∧
    send_request (get_target_chat raw) message o1 o2 = { printed := [message] } := by
  have h1 : get_target_chat raw = none := by
    simp [get_target_chat, hne, hbad]
  refine ⟨h1, by rw [h1]; rfl, by rw [h1]; rfl⟩

/-- C10 witness: the unparseable value `"abc"`. -/
theorem get_target_chat_invalid_like_absent_witness :
    get_target_chat "abc" = none ∧
    get_target_chat "abc" = get_target_chat "" ∧
    send_request (get_target_chat "abc") "msg" SendOutcome.ok SendOutcome.ok =
      { printed := ["msg"] } :=
  get_target_chat_invalid_like_absent "abc" "msg" SendOutcome.ok SendOutcome.ok
    (by decide) (by decide)

end AutoFixBot
